import Mathlib

/-!
Shallow embedding of the NextCloudRag event-ingestion pipeline:
the webhook gateway (services/webhook-gateway/main.py), the Redis work
queue, the indexer worker (services/indexer-worker/main.py and src/db.py)
and the ACL worker (services/acl-worker/main.py), with theorems checking
the specification's claims against these definitions.
-/

namespace NextCloudRag

/-! ### Python string primitives

Executable counterparts of the Python string operations the services use,
written with structural recursion so they evaluate in the kernel. -/

/-- Python truthiness for an optional string header value: `None` and the
empty string are falsy, everything else is truthy.  Returns the value when
truthy, `none` otherwise. -/
def pyTruthy : Option String → Option String
  | none => none
  | some s => if s = "" then none else some s

/-- Python `a or b` on two optional string values, as used for
`x_signature_sha256 or x_signature` in the gateway: the first truthy value
wins. -/
def pyOr (a b : Option String) : Option String :=
  match pyTruthy a with
  | some s => some s
  | none => pyTruthy b

/-- Does `needle` occur as a leading block of `hay`? (helper for substring
search). -/
def leadMatch : List Char → List Char → Bool
  | [], _ => true
  | _ :: _, [] => false
  | a :: as, b :: bs => a = b && leadMatch as bs

/-- Does `needle` occur contiguously anywhere in `hay`? (helper). -/
def containsSub (needle : List Char) : List Char → Bool
  | [] => needle.isEmpty
  | c :: t => leadMatch needle (c :: t) || containsSub needle t

/-- Python `needle in hay` substring test on strings. -/
def pyContains (hay needle : String) : Bool :=
  containsSub needle.data hay.data

/-- Python `s.strip("/")`: remove every leading and trailing slash. -/
def stripSlashes (s : String) : String :=
  String.mk (((s.data.dropWhile (fun c => c = '/')).reverse.dropWhile
    (fun c => c = '/')).reverse)

/-- Helper for `splitSlash`: accumulates the current segment (reversed). -/
def splitSlashAux : List Char → List Char → List String
  | [], acc => [String.mk acc.reverse]
  | c :: t, acc =>
    if c = '/' then String.mk acc.reverse :: splitSlashAux t []
    else splitSlashAux t (c :: acc)

/-- Python `s.split("/")`: `"" ↦ [""]`, `"a//b" ↦ ["a", "", "b"]`. -/
def splitSlash (s : String) : List String :=
  splitSlashAux s.data []

/-- Python `"/".join(parts)`. -/
def joinSlash : List String → String
  | [] => ""
  | [x] => x
  | x :: xs => x ++ "/" ++ joinSlash xs

/-- Python `str(x)` on an optional string value: `None` prints as `"None"`
(the indexer calls `str(file_id)` on a possibly missing id). -/
def pyStrOpt : Option String → String
  | none => "None"
  | some s => s

/-! ### Notification payload model

The two upstream notification shapes handled by `process_job` in
services/indexer-worker/main.py: the structured "Webhook Listeners" shape
(`payload["event"]` is a dict with a `class` discriminator and a `node`
object) and the legacy flat shape (`event`, `file_id`, `path`, `etag`
directly on the payload). -/

/-- The `node` object of a structured notification; every field may be
absent (`dict.get` returns `None`). -/
structure NodeObj where
  id : Option String
  path : Option String
  etag : Option String
deriving DecidableEq

/-- The nested `event` dict of a structured notification. -/
structure StructEvent where
  cls : Option String
  node : Option NodeObj
deriving DecidableEq

/-- A notification body: either the structured shape (the `event` key holds
a dict) or the legacy flat shape (any other body, with the four flat keys
each possibly absent). -/
inductive PayloadShape where
  | structured (ev : StructEvent)
  | legacy (event : Option String) (file_id : Option String)
      (path : Option String) (etag : Option String)
deriving DecidableEq

/-- A Redis queue entry as built by the gateway:
`{"source": "nextcloud", "payload": ..., "status": "pending"}`. -/
structure QueueEntry where
  source : String
  payload : PayloadShape
  status : String
deriving DecidableEq

/-! ### Work queue (Redis list)

The gateway `LPUSH`es onto `rag_queue`; both workers `BRPOP` from the same
list.  `LPUSH` prepends, `BRPOP` removes from the tail. -/

/-- Redis `LPUSH`: prepend an entry. -/
def lpush (q : List α) (x : α) : List α := x :: q

/-- Redis `BRPOP` (ignoring the timeout): remove and return the tail
entry, or `none` when the list is empty. -/
def brpop (q : List α) : Option (α × List α) :=
  match q.getLast? with
  | none => none
  | some x => some (x, q.dropLast)

/-! ### Event Gateway (services/webhook-gateway/main.py) -/

/-- The token the gateway actually accepts on the bearer-token path
(hard-coded in `handle_webhook`, deliberately not the configured
`NEXTCLOUD_WEBHOOK_SECRET`). -/
def PLACEHOLDER_TOKEN : String := "insecure-placeholder-for-now"

/-- An HTTP response of the gateway, by status and `detail` field. -/
inductive GwResponse where
  | accepted
  | unauthorized (detail : String)
  | badRequest (detail : String)
  | serverError
deriving DecidableEq

/-- An inbound request: raw body bytes, the three auth headers
(`X-Signature-SHA256`, `X-Signature`, `X-Nextcloud-Token`), and the result
of JSON-parsing the body (`none` models a `json.JSONDecodeError`). -/
structure GwRequest where
  body : String
  sig256 : Option String
  sig : Option String
  token : Option String
  parsed : Option PayloadShape

/-- `verify_signature` from the gateway: false on an empty signature,
otherwise compare the hex HMAC-SHA256 digest of the body (the HMAC is an
opaque parameter `hmacHex secret body` of the embedding) with the supplied
signature; `hmac.compare_digest` is functionally string equality. -/
def verify_signature (hmacHex : String → String → String)
    (secret body sigv : String) : Bool :=
  if sigv = "" then false
  else if hmacHex secret body = sigv then true else false

/-- The post-authentication stage of `handle_webhook`: parse the JSON body
(400 on failure), then enqueue the job onto `rag_queue` when Redis is
available (202), else 500. -/
def enqueueStage (redisOk : Bool) (req : GwRequest) (q : List QueueEntry) :
    GwResponse × List QueueEntry :=
  match req.parsed with
  | none => (.badRequest "Invalid JSON", q)
  | some p =>
    if redisOk then (.accepted, lpush q ⟨"nextcloud", p, "pending"⟩)
    else (.serverError, q)

/-- `handle_webhook` from the gateway.  `signature = sig256 or sig`; if a
truthy signature is present it is verified (401 "Invalid signature" on
mismatch); otherwise a truthy token is compared with the hard-coded
placeholder (401 "Invalid token" on mismatch); with neither credential the
request is rejected 401 "Missing auth" before anything is enqueued. -/
def handle_webhook (secret : String) (hmacHex : String → String → String)
    (redisOk : Bool) (req : GwRequest) (q : List QueueEntry) :
    GwResponse × List QueueEntry :=
  match pyOr req.sig256 req.sig with
  | some s =>
    if verify_signature hmacHex secret req.body s then
      enqueueStage redisOk req q
    else (.unauthorized "Invalid signature", q)
  | none =>
    match pyTruthy req.token with
    | some t =>
      if t = PLACEHOLDER_TOKEN then enqueueStage redisOk req q
      else (.unauthorized "Invalid token", q)
    | none => (.unauthorized "Missing auth", q)

/-! ### Event normalization (services/indexer-worker/main.py, process_job) -/

/-- Map the structured event-class discriminator to the simplified event
string, by substring match on `NodeCreatedEvent` / `NodeWrittenEvent` /
`NodeDeletedEvent`, in that order; anything else is `unknown`. -/
def mapEventClass (cls : String) : String :=
  if pyContains cls "NodeCreatedEvent" then "file.created"
  else if pyContains cls "NodeWrittenEvent" then "file.updated"
  else if pyContains cls "NodeDeletedEvent" then "file.deleted"
  else "unknown"

/-- Path resolution heuristic for structured-event paths: strip the
leading and trailing slashes, split on `/`, and when there are more than
two segments and the first is `files`, drop the first two segments
(`files/{owner}`); otherwise pass the raw path through unchanged. -/
def resolvePath (raw : String) : String :=
  let parts := splitSlash (stripSlashes raw)
  if 2 < parts.length ∧ parts.head? = some "files" then
    joinSlash (parts.drop 2)
  else raw

/-- Decidable test for the raw structured-path shape
`files/{owner}/{relative/path}`: after slash-stripping, the path splits
into at least three segments whose first is `files`. -/
def shapeTest (p : String) : Bool :=
  match splitSlash (stripSlashes p) with
  | "files" :: _ :: _ :: _ => true
  | _ => false

/-- The canonical job fields `process_job` extracts from a payload before
acting on it. -/
structure ParsedJob where
  event : Option String
  fileId : Option String
  filePath : String
  etag : Option String
deriving DecidableEq

/-- The normalization half of `process_job`: derive the event string, file
id, (resolved) file path, and etag from either payload shape. -/
def parseJob : PayloadShape → ParsedJob
  | .structured e =>
    let cls := e.cls.getD ""
    let node := e.node.getD ⟨none, none, none⟩
    { event := some (mapEventClass cls)
      fileId := node.id
      filePath := resolvePath (node.path.getD "")
      etag := node.etag }
  | .legacy ev fid p etag =>
    { event := ev, fileId := fid, filePath := p.getD "", etag := etag }

/-- The spec's `eventKind` enum, read off the worker's event string. -/
inductive EventKind where
  | fileCreated
  | fileUpdated
  | fileDeleted
  | accessChanged
  | unknown
deriving DecidableEq

/-- Event string to `eventKind`. -/
def eventKindOf : Option String → EventKind
  | some "file.created" => .fileCreated
  | some "file.updated" => .fileUpdated
  | some "file.deleted" => .fileDeleted
  | some "acl.changed" => .accessChanged
  | _ => .unknown

/-- The id supplied by the notification itself (`node.id` in the
structured shape, `file_id` in the legacy shape); stated from the spec's
words for comparison with what `parseJob` produces. -/
def payloadFileId : PayloadShape → Option String
  | .structured e => (e.node.getD ⟨none, none, none⟩).id
  | .legacy _ fid _ _ => fid

/-- Python `event in ["file.created", "file.updated"]`. -/
def contentEvent (j : ParsedJob) : Bool :=
  (j.event == some "file.created") || (j.event == some "file.updated")

/-! ### Content Consumer state (indexer-worker main.py and src/db.py)

The observable downstream state: the Qdrant index (chunk id to chunk
payload), the Postgres `files` table (file id to row), and the number of
undeleted `NamedTemporaryFile`s on disk (the worker creates them with
`delete=False` and removes them with `os.remove` only after a successful
upsert). -/

/-- One row of the `files` table written by `MetadataDB.upsert_file`. -/
structure FileRecord where
  path : String
  etag : Option String
  lastIndexed : Nat
deriving DecidableEq

/-- The `meta` dict handed to the pipeline:
`{"file_id": str(file_id), "path": file_path, "etag": etag}`. -/
structure PipeMeta where
  file_id : String
  path : String
  etag : Option String
deriving DecidableEq

/-- The `meta` dict built by `process_job` for a parsed job. -/
def pipeMetaOf (j : ParsedJob) : PipeMeta :=
  ⟨pyStrOpt j.fileId, j.filePath, j.etag⟩

/-- The worker's environment: the WebDAV fetch (`none` models a download
exception), the content pipeline (deterministic; `none` models a pipeline
exception; chunks are id-keyed payload strings), and whether the metadata
store raises onupsert. -/
structure WorkerEnv where
  fetch : String → Option String
  chunksOf : String → PipeMeta → Option (List (String × String))
  storeFails : Bool

/-- Observable downstream state of the content consumer. -/
structure WorkerState where
  idx : String → Option String
  meta : String → Option FileRecord
  temps : Nat

/-- Point update of a keyed map. -/
def update (m : String → Option α) (k : String) (v : α) :
    String → Option α :=
  fun x => if k = x then some v else m x

/-- Write a list of id-keyed chunks into the index, later entries
overwriting earlier ones (Qdrant upserts points by id). -/
def applyUpserts (cs : List (String × α)) (m : String → Option α) :
    String → Option α :=
  cs.foldl (fun m p => update m p.1 p.2) m

/-- The last value bound to a key in an update list (helper for reasoning
about `applyUpserts`). -/
def lastBind : List (String × α) → String → Option α
  | [], _ => none
  | p :: cs, x =>
    match lastBind cs x with
    | some v => some v
    | none => if p.1 = x then some p.2 else none

/-- The acting half of `process_job` on an already parsed job: for
`file.created` / `file.updated`, download the file (abort on failure),
write it to a fresh temporary file, run the pipeline (abort on failure,
leaving the temp file), upsert the index chunks, upsert the `files` row
(abort on store failure, leaving the temp file), and only then remove the
temp file.  `file.deleted` and everything else are no-ops. -/
def processParsed (env : WorkerEnv) (now : Nat) (j : ParsedJob)
    (s : WorkerState) : WorkerState :=
  if contentEvent j then
    match env.fetch j.filePath with
    | none => s
    | some content =>
      match env.chunksOf content (pipeMetaOf j) with
      | none => { s with temps := s.temps + 1 }
      | some cs =>
        if env.storeFails then
          { s with temps := s.temps + 1, idx := applyUpserts cs s.idx }
        else
          { s with idx := applyUpserts cs s.idx,
                   meta := update s.meta (pipeMetaOf j).file_id
                     ⟨j.filePath, j.etag, now⟩ }
  else s

/-- `process_job` on a dequeued queue entry: normalize, then act. -/
def process_job (env : WorkerEnv) (now : Nat) (entry : QueueEntry)
    (s : WorkerState) : WorkerState :=
  processParsed env now (parseJob entry.payload) s

/-! ### ACL worker (services/acl-worker/main.py, src/acl_client.py) -/

/-- An `AccessDescriptor` as produced by `NextcloudACLClient.fetch_acl`. -/
structure AclData where
  owner : String
  allowed_users : List String
  allowed_groups : List String
deriving DecidableEq

/-- The mock ACL derivation of `fetch_acl`: owner defaults to `admin`
unless the path mentions `hartkens`; the `marketing` group is inferred
from a case-insensitive path match. -/
def fetch_acl (file_path : String) : AclData :=
  { owner := if pyContains file_path "hartkens" then "hartkens" else "admin"
    allowed_users := []
    allowed_groups :=
      if pyContains (String.mk (file_path.data.map Char.toLower)) "marketing"
      then ["marketing"] else [] }

/-- `reconcile_all` from the ACL worker, returning the list of ACL
propagation calls it issues over a snapshot of the `files` table: the
source body is only a TODO comment and `pass`, so no call is made. -/
def reconcile_all (_db : List (String × FileRecord)) :
    List (String × AclData) := []

/-- The reconciliation interval from `schedule.every(10).minutes`. -/
def RECONCILE_INTERVAL_MINUTES : Nat := 10

/-- The ACL worker's dispatch filter on a dequeued entry:
`payload.get("event") == "acl.changed"` (a structured payload's `event` is
a dict and never equals the string). -/
def aclFilter : PayloadShape → Bool
  | .legacy ev _ _ _ => ev == some "acl.changed"
  | .structured _ => false

/-- One iteration of the ACL worker's consumer loop: `BRPOP` from the
shared `rag_queue`; a popped entry is dispatched to `process_acl_job` only
when the filter matches, and is silently discarded otherwise.  Returns the
remaining queue and the dispatched entry, if any. -/
def aclWorkerIteration (q : List QueueEntry) :
    List QueueEntry × Option QueueEntry :=
  match brpop q with
  | none => (q, none)
  | some (e, rest) => if aclFilter e.payload then (rest, some e) else (rest, none)

/-- One iteration of the indexer worker's consumer loop: `BRPOP` from the
shared `rag_queue` and hand any entry to `process_job`. -/
def indexerPop (q : List QueueEntry) : List QueueEntry × Option QueueEntry :=
  match brpop q with
  | none => (q, none)
  | some (e, rest) => (rest, some e)

/-! ### Concrete sample inputs used by witnesses and counterexamples -/

/-- A legacy `file.created` notification body. -/
def samplePayload : PayloadShape :=
  .legacy (some "file.created") (some "42") (some "Docs/a.pdf") (some "v1")

/-- The same notification as a queue entry built by the gateway. -/
def sampleCreatedEntry : QueueEntry :=
  ⟨"nextcloud", samplePayload, "pending"⟩

/-- A three-row snapshot of the `files` table. -/
def seededDb : List (String × FileRecord) :=
  [("1", ⟨"Docs/a.pdf", some "e1", 0⟩),
   ("2", ⟨"Docs/b.pdf", some "e2", 0⟩),
   ("3", ⟨"Docs/c.pdf", some "e3", 0⟩)]

/-- A structured payload with an actionable class but no `node.id`. -/
def badStructuredPayload : PayloadShape :=
  .structured ⟨some "SomeNodeCreatedEvent",
    some ⟨none, some "files/alice/Docs/a.pdf", some "v1"⟩⟩

/-- A parsed `file.created` job. -/
def jobSample : ParsedJob :=
  ⟨some "file.created", some "42", "Docs/a.pdf", some "v1"⟩

/-- An environment whose fetch succeeds and whose pipeline always
raises. -/
def envPipeFail : WorkerEnv :=
  ⟨fun _ => some "BYTES", fun _ _ => none, false⟩

/-- The empty worker state. -/
def s0 : WorkerState :=
  ⟨fun _ => none, fun _ => none, 0⟩

/-- A degenerate stand-in for the HMAC function in closed statements whose
control flow never consults it. -/
def constHmac : String → String → String := fun _ _ => "digest"

/-- A concrete injective-enough HMAC stand-in for signature witnesses. -/
def concatHmac : String → String → String := fun s b => s ++ b

/-! ### Helper lemmas -/

/-- `pyTruthy` only returns nonempty strings. -/
theorem pyTruthy_ne_empty {a : Option String} {s : String}
    (h : pyTruthy a = some s) : s ≠ "" := by
  cases a with
  | none => exact absurd h (by simp [pyTruthy])
  | some x =>
    by_cases hx : x = "" <;> simp [pyTruthy, hx] at h
    exact h ▸ hx

/-- `pyOr` only returns nonempty strings. -/
theorem pyOr_ne_empty {a b : Option String} {s : String}
    (h : pyOr a b = some s) : s ≠ "" := by
  unfold pyOr at h
  cases ha : pyTruthy a with
  | some x => rw [ha] at h; exact pyTruthy_ne_empty (ha.trans h)
  | none => rw [ha] at h; exact pyTruthy_ne_empty h

/-- Pointwise description of `applyUpserts`: the last binding in the
update list wins, and absent keys fall through to the base map. -/
theorem applyUpserts_apply (cs : List (String × α)) (m : String → Option α)
    (x : String) :
    applyUpserts cs m x =
      match lastBind cs x with
      | some v => some v
      | none => m x := by
  induction cs generalizing m with
  | nil => rfl
  | cons p cs ih =>
    show applyUpserts cs (update m p.1 p.2) x = _
    rw [ih]
    cases hlb : lastBind cs x with
    | some v => simp [lastBind, hlb]
    | none =>
      by_cases hx : p.1 = x <;> simp [lastBind, hlb, update, hx]

/-- Replaying the same id-keyed chunk writes is a no-op. -/
theorem applyUpserts_idem (cs : List (String × α)) (m : String → Option α) :
    applyUpserts cs (applyUpserts cs m) = applyUpserts cs m := by
  funext x
  cases hlb : lastBind cs x <;>
    simp [applyUpserts_apply, hlb]

/-- Re-upserting the same key overwrites the previous upsert. -/
theorem update_update (m : String → Option α) (k : String) (v1 v2 : α) :
    update (update m k v1) k v2 = update m k v2 := by
  funext x
  by_cases h : k = x <;> simp [update, h]

/-- The post-authentication stage never answers 401: its outcomes are
202, 400 or 500. -/
theorem enqueueStage_no_unauthorized (redisOk : Bool) (req : GwRequest)
    (q : List QueueEntry) (d : String) :
    (enqueueStage redisOk req q).fst ≠ GwResponse.unauthorized d := by
  unfold enqueueStage
  cases req.parsed with
  | none => simp
  | some p => by_cases hr : redisOk <;> simp [hr]

/-- Resolution is the identity on every path failing the
`files/{owner}/{relative}` shape test. -/
theorem resolvePath_noshape (p : String) (h : shapeTest p = false) :
    resolvePath p = p := by
  unfold shapeTest at h
  simp only [resolvePath]
  cases hL : splitSlash (stripSlashes p) with
  | nil => simp
  | cons a l =>
    rw [hL] at h
    by_cases ha : a = "files"
    · subst ha
      cases l with
      | nil => simp
      | cons b l2 =>
        cases l2 with
        | nil => simp
        | cons c l3 => simp at h
    · simp [ha]

/-- Resolution drops the first two segments of every path of the raw
`files/{owner}/{relative}` shape. -/
theorem resolvePath_shape (raw owner : String) (rest : List String)
    (hparts : splitSlash (stripSlashes raw) = "files" :: owner :: rest)
    (hne : rest ≠ []) :
    resolvePath raw = joinSlash rest := by
  have hlen : 0 < rest.length := List.length_pos.mpr hne
  have hcond : 2 < ("files" :: owner :: rest).length ∧
      ("files" :: owner :: rest).head? = some "files" := by
    refine ⟨?_, rfl⟩
    simp only [List.length_cons]
    omega
  simp only [resolvePath, hparts, if_pos hcond]
  rfl

/-! ### Claim theorems -/

/-- Claim C1 (code bug): a single `file.created` notification, relevant to
the content-indexing role, is enqueued once on the shared `rag_queue`; one
iteration of the ACL worker's loop pops it and discards it (its filter
only dispatches `acl.changed`), leaving the queue empty, so the content
role's next pop sees nothing — the event reaches the content role zero
times instead of exactly once. -/
theorem shared_queue_loses_events :
    contentEvent (parseJob sampleCreatedEntry.payload) = true ∧
    aclWorkerIteration (lpush [] sampleCreatedEntry) = ([], none) ∧
    indexerPop ([] : List QueueEntry) = ([], none) := by
  refine ⟨by decide, by decide, rfl⟩

/-- Claim C2: processing the same queue entry twice (at times `t1` then
`t2`) leaves the index and the metadata table in exactly the state of
processing it once (at `t2`), for every environment, including failing
fetches, pipelines and stores. -/
theorem content_consumer_idempotent (env : WorkerEnv) (t1 t2 : Nat)
    (entry : QueueEntry) (s : WorkerState) :
    (process_job env t2 entry (process_job env t1 entry s)).idx
        = (process_job env t2 entry s).idx ∧
    (process_job env t2 entry (process_job env t1 entry s)).meta
        = (process_job env t2 entry s).meta := by
  unfold process_job processParsed
  cases hev : contentEvent (parseJob entry.payload)
  · simp [hev]
  · cases hf : env.fetch (parseJob entry.payload).filePath with
    | none => simp [hev, hf]
    | some content =>
      cases hc : env.chunksOf content (pipeMetaOf (parseJob entry.payload)) with
      | none => simp [hev, hf, hc]
      | some cs =>
        cases hst : env.storeFails
        · simp [hev, hf, hc, hst, applyUpserts_idem, update_update]
        · simp [hev, hf, hc, hst, applyUpserts_idem]

/-- Claim C3 (code bug): `reconcile_all` is scheduled every 10 minutes but
its body is a TODO stub; over a three-row metadata snapshot it issues zero
ACL propagation calls instead of one per file. -/
theorem reconcile_sweep_is_stub :
    seededDb.length = 3 ∧ reconcile_all seededDb = [] ∧
    RECONCILE_INTERVAL_MINUTES = 10 := by
  decide

/-- Claim C4 (counterexample): a request whose bearer token equals the
configured shared secret (`"s3cr3t"`), with no signature header, valid
JSON and a live queue, is rejected 401 "Invalid token" — the gateway does
not compare the token with the configured secret. -/
theorem token_equal_to_secret_rejected :
    (handle_webhook "s3cr3t" constHmac true
      ⟨"body", none, none, some "s3cr3t", some samplePayload⟩ []).fst
      = GwResponse.unauthorized "Invalid token" := by
  decide

/-- Claim C4 (amended): with no signature header and a nonempty token, a
request (with parseable JSON and a live queue) is accepted iff the token
equals the hard-coded placeholder `"insecure-placeholder-for-now"`, and is
rejected 401 "Invalid token" iff it differs — independently of the
configured shared secret. -/
theorem token_auth_placeholder (secret : String)
    (hmacHex : String → String → String) (body tok : String)
    (p : PayloadShape) (q : List QueueEntry) (htok : tok ≠ "") :
    ((handle_webhook secret hmacHex true
        ⟨body, none, none, some tok, some p⟩ q).fst
      = GwResponse.accepted ↔ tok = PLACEHOLDER_TOKEN) ∧
    ((handle_webhook secret hmacHex true
        ⟨body, none, none, some tok, some p⟩ q).fst
      = GwResponse.unauthorized "Invalid token" ↔ tok ≠ PLACEHOLDER_TOKEN) := by
  have hw : handle_webhook secret hmacHex true
      ⟨body, none, none, some tok, some p⟩ q
      = if tok = PLACEHOLDER_TOKEN
        then (GwResponse.accepted, lpush q ⟨"nextcloud", p, "pending"⟩)
        else (GwResponse.unauthorized "Invalid token", q) := by
    simp [handle_webhook, pyOr, pyTruthy, htok, enqueueStage]
  rw [hw]
  by_cases hp : tok = PLACEHOLDER_TOKEN <;> simp [hp]

/-- Claim C4 (witness): the placeholder token itself is accepted. -/
theorem token_auth_placeholder_witness :
    ((handle_webhook "s3cr3t" constHmac true
        ⟨"body", none, none, some "insecure-placeholder-for-now",
          some samplePayload⟩ []).fst
      = GwResponse.accepted
        ↔ ("insecure-placeholder-for-now" : String) = PLACEHOLDER_TOKEN) ∧
    ((handle_webhook "s3cr3t" constHmac true
        ⟨"body", none, none, some "insecure-placeholder-for-now",
          some samplePayload⟩ []).fst
      = GwResponse.unauthorized "Invalid token"
        ↔ ("insecure-placeholder-for-now" : String) ≠ PLACEHOLDER_TOKEN) :=
  token_auth_placeholder "s3cr3t" constHmac "body"
    "insecure-placeholder-for-now" samplePayload [] (by decide)

/-- Claim C5: a request lacking both signature headers and the token
header is rejected 401 "Missing auth" and the queue is left untouched, for
every secret, HMAC, body, parse result and queue state. -/
theorem missing_auth_rejected (secret : String)
    (hmacHex : String → String → String) (redisOk : Bool) (body : String)
    (parsed : Option PayloadShape) (q : List QueueEntry) :
    handle_webhook secret hmacHex redisOk ⟨body, none, none, none, parsed⟩ q
      = (GwResponse.unauthorized "Missing auth", q) := rfl

/-- Claim C6 (counterexample): path resolution is not idempotent — a raw
structured path whose relative part itself starts with a `files` segment
is stripped again on a second resolution. -/
theorem path_resolution_not_idempotent :
    resolvePath "files/alice/files/bob/doc.pdf" = "files/bob/doc.pdf" ∧
    resolvePath "files/bob/doc.pdf" = "doc.pdf" ∧
    resolvePath (resolvePath "files/alice/files/bob/doc.pdf")
      ≠ resolvePath "files/alice/files/bob/doc.pdf" := by
  decide

/-- Claim C6 (amended): resolution strips the first two segments of every
path of shape `files/{owner}/{relative}` (so `files/alice/Docs/a.pdf`
yields `Docs/a.pdf`), passes every other path through unchanged, and is a
no-op exactly on those resolved paths that do not again match the
`files/{owner}/{relative}` shape. -/
theorem path_resolution_amended :
    (resolvePath "files/alice/Docs/a.pdf" = "Docs/a.pdf") ∧
    (∀ raw owner rest, splitSlash (stripSlashes raw) = "files" :: owner :: rest →
      rest ≠ [] → resolvePath raw = joinSlash rest) ∧
    (∀ p, shapeTest p = false → resolvePath p = p) ∧
    (∀ p, shapeTest (resolvePath p) = false →
      resolvePath (resolvePath p) = resolvePath p) :=
  ⟨by decide, resolvePath_shape, resolvePath_noshape,
    fun p h => resolvePath_noshape _ h⟩

/-- Claim C6 (witness): resolving a raw structured path strips two
segments; resolving the already-relative result is a no-op. -/
theorem path_resolution_amended_witness :
    resolvePath "files/bob/Reports/q1.pdf" = joinSlash ["Reports", "q1.pdf"] ∧
    resolvePath "Reports/q1.pdf" = "Reports/q1.pdf" :=
  ⟨path_resolution_amended.2.1 "files/bob/Reports/q1.pdf" "bob"
      ["Reports", "q1.pdf"] (by decide) (by decide),
    path_resolution_amended.2.2.1 "Reports/q1.pdf" (by decide)⟩

/-- Claim C7 (counterexample): a class name containing `CreatedEvent` but
not `NodeCreatedEvent` is mapped to Unknown, not FileCreated — the code
matches on the `Node*Event` substrings, not on `*CreatedEvent*`. -/
theorem event_class_substring_mismatch :
    pyContains "SomeCreatedEvent" "CreatedEvent" = true ∧
    eventKindOf (parseJob (.structured ⟨some "SomeCreatedEvent", none⟩)).event
      = EventKind.unknown := by
  decide

/-- Claim C7 (amended): the event class of a structured notification is
mapped by substring match on `NodeCreatedEvent`, `NodeWrittenEvent`,
`NodeDeletedEvent`, tried in that order, to FileCreated / FileUpdated /
FileDeleted, and to Unknown when none occurs. -/
theorem event_class_mapping (cls : String) (node : Option NodeObj) :
    (pyContains cls "NodeCreatedEvent" = true →
      eventKindOf (parseJob (.structured ⟨some cls, node⟩)).event
        = EventKind.fileCreated) ∧
    (pyContains cls "NodeCreatedEvent" = false →
      pyContains cls "NodeWrittenEvent" = true →
      eventKindOf (parseJob (.structured ⟨some cls, node⟩)).event
        = EventKind.fileUpdated) ∧
    (pyContains cls "NodeCreatedEvent" = false →
      pyContains cls "NodeWrittenEvent" = false →
      pyContains cls "NodeDeletedEvent" = true →
      eventKindOf (parseJob (.structured ⟨some cls, node⟩)).event
        = EventKind.fileDeleted) ∧
    (pyContains cls "NodeCreatedEvent" = false →
      pyContains cls "NodeWrittenEvent" = false →
      pyContains cls "NodeDeletedEvent" = false →
      eventKindOf (parseJob (.structured ⟨some cls, node⟩)).event
        = EventKind.unknown) := by
  have he : (parseJob (.structured ⟨some cls, node⟩)).event
      = some (mapEventClass cls) := rfl
  refine ⟨fun h1 => ?_, fun h1 h2 => ?_, fun h1 h2 h3 => ?_,
    fun h1 h2 h3 => ?_⟩ <;>
    rw [he] <;> unfold mapEventClass <;>
      simp_all <;> rfl

/-- Claim C7 (witness): a class name containing `NodeCreatedEvent` maps to
FileCreated. -/
theorem event_class_mapping_witness :
    eventKindOf (parseJob (.structured
        ⟨some "XNodeCreatedEventY", none⟩)).event = EventKind.fileCreated :=
  (event_class_mapping "XNodeCreatedEventY" none).1 (by decide)

/-- Claim C8 (counterexample): a structured payload with class
`SomeNodeCreatedEvent` but no `node.id` parses to a job whose event kind
is FileCreated (not Unknown) yet whose fileId is null. -/
theorem fileid_invariant_fails :
    eventKindOf (parseJob badStructuredPayload).event = EventKind.fileCreated ∧
    EventKind.fileCreated ≠ EventKind.unknown ∧
    (parseJob badStructuredPayload).fileId = none := by
  decide

/-- Claim C8 (amended): the parser never enforces fileId presence; a job's
fileId is exactly the identifier supplied by the notification (`node.id`
for the structured shape, `file_id` for the legacy shape), whatever the
event kind. -/
theorem fileid_from_payload (p : PayloadShape) :
    (parseJob p).fileId = payloadFileId p := by
  cases p <;> rfl

/-- Claim C9 (counterexample): a `file.created` job whose pipeline raises
leaves one undeleted temporary file behind, where none existed before the
job — the temporary resource is not released on that exit path. -/
theorem temp_leak_on_pipeline_failure :
    (processParsed envPipeFail 0 jobSample s0).temps = 1 ∧ s0.temps = 0 :=
  ⟨rfl, rfl⟩

/-- Claim C9 (amended): for a FileCreated/FileUpdated job the temporary
file is released only on the fully successful path; on fetch failure no
temporary is ever created; on pipeline failure or store failure the
temporary file is created and never removed. -/
theorem temp_release_paths (env : WorkerEnv) (now : Nat) (j : ParsedJob)
    (s : WorkerState) (hev : contentEvent j = true) :
    (env.fetch j.filePath = none →
      (processParsed env now j s).temps = s.temps) ∧
    (∀ content, env.fetch j.filePath = some content →
      env.chunksOf content (pipeMetaOf j) = none →
      (processParsed env now j s).temps = s.temps + 1) ∧
    (∀ content cs, env.fetch j.filePath = some content →
      env.chunksOf content (pipeMetaOf j) = some cs → env.storeFails = true →
      (processParsed env now j s).temps = s.temps + 1) ∧
    (∀ content cs, env.fetch j.filePath = some content →
      env.chunksOf content (pipeMetaOf j) = some cs → env.storeFails = false →
      (processParsed env now j s).temps = s.temps) := by
  refine ⟨fun hf => ?_, fun content hf hc => ?_,
    fun content cs hf hc hst => ?_, fun content cs hf hc hst => ?_⟩
  · simp [processParsed, hev, hf]
  · simp [processParsed, hev, hf, hc]
  · simp [processParsed, hev, hf, hc, hst]
  · simp [processParsed, hev, hf, hc, hst]

/-- Claim C9 (witness): the pipeline-failure leak at a concrete job. -/
theorem temp_release_paths_witness :
    (processParsed envPipeFail 0 jobSample s0).temps = s0.temps + 1 :=
  (temp_release_paths envPipeFail 0 jobSample s0 (by decide)).2.1
    "BYTES" rfl rfl

/-- Claim C10: whenever an effective signature is present (the
`X-Signature-SHA256` value when truthy, else the generic `X-Signature`
value), the request is rejected 401 "Invalid signature" exactly when the
hex HMAC digest of the raw body under the shared secret differs from it,
and on a matching digest the request proceeds to the post-auth stage. -/
theorem signature_auth (secret : String)
    (hmacHex : String → String → String) (redisOk : Bool) (req : GwRequest)
    (q : List QueueEntry) (s : String)
    (hs : pyOr req.sig256 req.sig = some s) :
    ((handle_webhook secret hmacHex redisOk req q).fst
        = GwResponse.unauthorized "Invalid signature"
      ↔ hmacHex secret req.body ≠ s) ∧
    (hmacHex secret req.body = s →
      handle_webhook secret hmacHex redisOk req q
        = enqueueStage redisOk req q) := by
  have hne : s ≠ "" := pyOr_ne_empty hs
  have hw : handle_webhook secret hmacHex redisOk req q
      = if verify_signature hmacHex secret req.body s then
          enqueueStage redisOk req q
        else (GwResponse.unauthorized "Invalid signature", q) := by
    unfold handle_webhook
    rw [hs]
  by_cases hd : hmacHex secret req.body = s
  · have hv : verify_signature hmacHex secret req.body s = true := by
      simp [verify_signature, hne, hd]
    rw [hw]
    simp [hv, hd, enqueueStage_no_unauthorized]
  · have hv : verify_signature hmacHex secret req.body s = false := by
      simp [verify_signature, hne, hd]
    rw [hw]
    simp [hv, hd]

/-- Claim C10 (witness): a matching SHA256-header signature passes the
signature check and the job is enqueued; the generic header is ignored
when the SHA256 header is present. -/
theorem signature_auth_witness :
    (((handle_webhook "k" concatHmac true
        ⟨"x", some "kx", some "other", none, some samplePayload⟩ []).fst
      = GwResponse.unauthorized "Invalid signature")
        ↔ concatHmac "k" "x" ≠ "kx") ∧
    (concatHmac "k" "x" = "kx" →
      handle_webhook "k" concatHmac true
          ⟨"x", some "kx", some "other", none, some samplePayload⟩ []
        = enqueueStage true
            ⟨"x", some "kx", some "other", none, some samplePayload⟩ []) :=
  signature_auth "k" concatHmac true
    ⟨"x", some "kx", some "other", none, some samplePayload⟩ [] "kx"
    (by decide)

end NextCloudRag
